import Mathlib

/-!
Verification of `brother_ql/backends/network.py` (network backend of
brother_ql-inventree): SNMP-based broadcast discovery of printers and the
TCP connection object with its strategy-selectable read path.

The Python module is shallowly embedded below: module-level constants and
pure computations become Lean definitions; the effect of socket calls is
modelled by explicit operation traces or oracles for the outcomes of the
external calls (TCP connect, unicast SNMP get); wall-clock times are
rationals (seconds); byte strings are `List Nat`.
-/

namespace BrotherQL

/-! ## The SNMP OID table (network.py lines 27-35) -/

/-- `brother_ql_snmp_oids`: the fixed mapping from logical status-field names
to SNMP object identifier strings, exactly as written in the source. -/
def brother_ql_snmp_oids : String → Option String
  | "snmp_get_ip" => some "1.3.6.1.4.1.1240.2.3.4.5.2.3.0"
  | "snmp_get_netmask" => some "1.3.6.1.4.1.1240.2.3.4.5.2.4.0"
  | "snmp_get_mac" => some "1.3.6.1.4.1.1240.2.3.4.5.2.4.0"
  | "snmp_get_location" => some "1.3.6.1.2.1.1.6.0"
  | "snmp_get_model" => some "1.3.6.1.2.1.25.3.2.1.3.1"
  | "snmp_get_serial" => some "1.3.6.1.2.1.43.5.1.1.17"
  | "snmp_get_status" => some "1.3.6.1.4.1.2435.3.3.9.1.6.1.0"
  | _ => none

/-! ## Discovery timer state (network.py lines 37-41, 69-78, 146-158) -/

/-- `maxWaitForResponses = 5` (seconds), network.py line 37. -/
def maxWaitForResponses : ℚ := 5

/-- `maxNumberOfResponses = 10`, network.py line 38. -/
def maxNumberOfResponses : Nat := 10

/-- The module-level `startedAt = 0` (network.py line 39).  The assignment
`startedAt = time()` at line 72 inside `list_available_devices` carries no
`global startedAt` declaration, so in Python it binds a function-local
variable; the module-level value read by `cbTimerFun` therefore remains `0`
forever. -/
def startedAt : ℚ := 0

/-- `cbTimerFun(timeNow)` (network.py lines 149-152): raises
`TimeoutTimerExpired` iff `timeNow - startedAt > maxWaitForResponses`,
where `startedAt` is the module-level global (which is never updated, see
`startedAt`).  Returns `true` iff the exception is raised. -/
def cbTimerFun (timeNow : ℚ) : Bool :=
  timeNow - startedAt > maxWaitForResponses

/-! ## Discovery responses and the found-printer set -/

/-- One broadcast response, as seen by `cbRecvFun`: the transport address
`(sourceIP, sourcePort)` of the responding device. -/
structure Response where
  host : String
  port : Nat
deriving DecidableEq, Repr

/-- The key added by `cbRecvFun` (network.py line 158): the Python f-string
`f"{transportAddress[0]}:{transportAddress[1]}"`. -/
def addrKey (r : Response) : String :=
  r.host ++ ":" ++ toString r.port

/-- Adding one key to the `foundPrinters` Python `set`, modelled as a
duplicate-free list in insertion order: `set.add` is a no-op on an element
already present. -/
def addFound (s : List String) (k : String) : List String :=
  if k ∈ s then s else s ++ [k]

/-- The contents of the `foundPrinters` set after `cbRecvFun` has been
invoked once for each response in `delivered`, in order, starting from the
empty set (`foundPrinters.clear()` runs at scan start, network.py line 69). -/
def foundPrintersOf (delivered : List Response) : List String :=
  delivered.foldl (fun s r => addFound s (addrKey r)) []

/-- A discovered device: one element of the list returned by
`list_available_devices` (network.py line 81), a dictionary with keys
`identifier` and `instance`.  `inst` models the `instance` key, which
discovery always sets to `None`. -/
structure DiscoveredDevice where
  identifier : String
  inst : Option Unit
deriving DecidableEq, Repr

/-- The record built for one found printer (network.py line 81):
`{'identifier': 'tcp://' + printer, 'instance': None}`. -/
def mkDevice (printer : String) : DiscoveredDevice :=
  ⟨"tcp://" ++ printer, none⟩

/-- The list comprehension of network.py line 81. -/
def toDevices (found : List String) : List DiscoveredDevice :=
  found.map mkDevice

/-! ## The broadcast dispatch loop -/

/-- One event seen by the dispatch loop of `quicksnmp.broadcastSNMPReq`:
either a timer tick (at wall-clock time `timeNow`, passed to `cbTimerFun`)
or an incoming datagram (passed to `cbRecvFun`). -/
inductive ScanEvent
  | tick (timeNow : ℚ)
  | recv (host : String) (port : Nat)
deriving Repr

/-- Modelled from the spec: the event-dispatch loop of
`quicksnmp.broadcastSNMPReq` (the `quicksnmp` module of this repository is
not under src/).  Per spec §4.1, the loop alternates between delivering
incoming responses to the response callback and invoking the tick callback;
it stops when `maxNumberOfResponses` distinct responses have been observed,
or when the tick callback raises the stop condition
(`TimeoutTimerExpired`), which propagates out of the loop.  The result is
the list of responses delivered to `cbRecvFun`, paired with `true` iff the
loop ended by the raised `TimeoutTimerExpired`. -/
def dispatchLoop : List ScanEvent → List Response → (List Response × Bool)
  | [], delivered => (delivered, false)
  | ScanEvent.tick t :: es, delivered =>
      if cbTimerFun t then (delivered, true) else dispatchLoop es delivered
  | ScanEvent.recv h p :: es, delivered =>
      let d2 := delivered ++ [⟨h, p⟩]
      if maxNumberOfResponses ≤ (foundPrintersOf d2).length then (d2, false)
      else dispatchLoop es d2

/-- The responses delivered to `cbRecvFun` during one scan that observes the
event sequence `events`. -/
def deliveredOf (events : List ScanEvent) : List Response :=
  (dispatchLoop events []).1

/-- `list_available_devices` (network.py lines 43-81), as a function of the
event sequence the dispatcher observes.  The set of found printers is
cleared at scan start (line 69); the broadcast runs inside
`try: ... except TimeoutTimerExpired: pass` (lines 75-78), so a
`TimeoutTimerExpired` raised by the tick callback is swallowed and the
function returns normally in both termination paths.  The `Except Unit`
codomain records exception behaviour: `Except.ok` means the call returns
without raising. -/
def list_available_devices (events : List ScanEvent) : Except Unit (List DiscoveredDevice) :=
  Except.ok (toDevices (foundPrintersOf (deliveredOf events)))

/-! ## Device identifier parsing (network.py lines 97-104) -/

/-- `device_specifier.startswith('tcp://')` followed by
`device_specifier[6:]` (network.py lines 98-99), on the character list of
the string. -/
def stripScheme : List Char → List Char
  | 't' :: 'c' :: 'p' :: ':' :: '/' :: '/' :: rest => rest
  | s => s

/-- Python `str.partition(':')` (network.py line 100), keeping the part
before the first `':'` and the part after it.  When the string has no
`':'`, the second component is empty — exactly the strings on which
Python's `if port:` test is false. -/
def partitionColon : List Char → List Char × List Char
  | [] => ([], [])
  | c :: cs =>
      if c = ':' then ([], cs)
      else
        let (h, p) := partitionColon cs
        (c :: h, p)

/-- Python `int(port)` (network.py line 102) on the strings that occur
here: a nonempty all-digit string parses to its decimal value, any other
string raises `ValueError` (`none`).  (Python's `int` also accepts
sign/whitespace/underscore forms; none of them can reach this call site
with a meaning relevant to the claims below, and on every input used in
this file the two agree.) -/
def pyInt (s : List Char) : Option Nat :=
  if s ≠ [] ∧ s.all (·.isDigit) then
    some (s.foldl (fun a c => a * 10 + (c.toNat - 48)) 0)
  else none

/-- Outcome of parsing a device specifier string in
`BrotherQLBackendNetwork.__init__`: either a host and a port, or the
uncaught `ValueError` raised by `int(port)`. -/
inductive ParseResult
  | ok (host : List Char) (port : Nat)
  | valueError
deriving DecidableEq, Repr

/-- The parsing steps of `BrotherQLBackendNetwork.__init__`
(network.py lines 97-104): strip a leading `tcp://` if present, split
host/port at the first `':'` via `partition`, default the port to `9100`
when the part after the `':'` is empty (or there is no `':'`), otherwise
convert it with `int`. -/
def parseDeviceSpecifier (device_specifier : List Char) : ParseResult :=
  let d := stripScheme device_specifier
  let hp := partitionColon d
  if hp.2 = [] then ParseResult.ok hp.1 9100
  else
    match pyInt hp.2 with
    | some n => ParseResult.ok hp.1 n
    | none => ParseResult.valueError

/-- `parseDeviceSpecifier` on a `String`. -/
def parseDeviceSpecifierS (s : String) : ParseResult :=
  parseDeviceSpecifier s.data

/-- The parse the spec's words describe: strip the scheme prefix if
present, then split host/port on the LAST `':'` of the remaining string,
defaulting the port to `9100` when no port segment follows the host.
Stated for comparison with `parseDeviceSpecifier`, which is what the code
does. -/
def parseSpecLastColon (device_specifier : List Char) : ParseResult :=
  let d := stripScheme device_specifier
  if ':' ∈ d then
    let rp := partitionColon d.reverse
    let host := rp.2.reverse
    let port := rp.1.reverse
    if port = [] then ParseResult.ok host 9100
    else
      match pyInt port with
      | some n => ParseResult.ok host n
      | none => ParseResult.valueError
  else ParseResult.ok d 9100

/-- The amended reading of the spec sentence: split host/port on the FIRST
`':'` of the remaining string (phrased independently of
`parseDeviceSpecifier`, via `takeWhile`/`dropWhile`). -/
def parseSpecFirstColon (device_specifier : List Char) : ParseResult :=
  let d := stripScheme device_specifier
  let host := d.takeWhile (· ≠ ':')
  match d.dropWhile (· ≠ ':') with
  | [] => ParseResult.ok host 9100
  | _ :: port =>
      if port = [] then ParseResult.ok host 9100
      else
        match pyInt port with
        | some n => ParseResult.ok host n
        | none => ParseResult.valueError

/-! ## Connection construction (network.py lines 88-116) -/

/-- `read_timeout = 0.01` seconds (network.py line 94). -/
def read_timeout : ℚ := 1 / 100

/-- The strategy attribute set in `__init__` (network.py line 96): the
string `'socket_timeout'`.  The recognised values are `'socket_timeout'`,
`'try_twice'` and `'select'`. -/
def defaultStrategy : String := "socket_timeout"

/-- The connection object state after a successful `__init__`: resolved
host, socket timeout currently in effect, strategy string, and the
`TCP_NODELAY` option (network.py lines 106-114). -/
structure Conn where
  host : List Char
  timeout : ℚ
  strategy : String
  nodelay : Bool
deriving DecidableEq, Repr

/-- Outcome of `BrotherQLBackendNetwork.__init__` on a string specifier:
either a connected object, the uncaught `ValueError` from `int(port)`, or
the `ValueError('Could not connect to the device.')` raised `from` the
underlying `OSError` when the TCP connect fails (network.py lines
105-110).  The spec's error taxonomy names this wrapped construction-time
failure `ConnectionError`; its `cause` field is the wrapped `OSError`. -/
inductive InitResult
  | connected (c : Conn)
  | intValueError
  | connectionError (msg : List Char) (cause : String)
deriving DecidableEq, Repr

/-- `BrotherQLBackendNetwork.__init__` (network.py lines 88-116) on a
string specifier.  `connectOutcome host port` is the outcome of the single
`socket.connect((host, port))` call: `none` on success, `some cause` when
the OS raises an `OSError` described by `cause` (connection refused,
unreachable, DNS failure...).  On success the socket has `TCP_NODELAY`
set and, since the strategy is `'socket_timeout'`, its timeout is
`read_timeout` (line 112). -/
def initBackend (device_specifier : List Char)
    (connectOutcome : List Char → Nat → Option String) : InitResult :=
  match parseDeviceSpecifier device_specifier with
  | ParseResult.valueError => InitResult.intValueError
  | ParseResult.ok host port =>
      match connectOutcome host port with
      | some cause =>
          InitResult.connectionError "Could not connect to the device.".data cause
      | none =>
          InitResult.connected
            { host := host, timeout := read_timeout,
              strategy := defaultStrategy, nodelay := true }

/-! ## Writing (network.py lines 118-121) -/

/-- One operation `_write` performs on the connection's socket. -/
inductive SockOp
  | setTimeout (t : ℚ)
  | sendall (data : List Nat)
deriving DecidableEq, Repr

/-- The exact socket-operation sequence of `_write(data)`
(network.py lines 118-121): `settimeout(10)`, `sendall(data)`,
`settimeout(read_timeout)`.  `_write` returns `None`. -/
def writeOps (data : List Nat) : List SockOp :=
  [SockOp.setTimeout 10, SockOp.sendall data, SockOp.setTimeout read_timeout]

/-- Connection state touched by socket operations: the timeout in effect
and the log of byte strings handed to `sendall`, next to the fields no
socket operation changes. -/
structure ConnState where
  timeout : ℚ
  sent : List (List Nat)
  host : List Char
  strategy : String
deriving DecidableEq, Repr

/-- Effect of one socket operation on the connection state. -/
def applyOp (st : ConnState) : SockOp → ConnState
  | SockOp.setTimeout t => { st with timeout := t }
  | SockOp.sendall d => { st with sent := st.sent ++ [d] }

/-- Effect of a sequence of socket operations, first to last. -/
def runOps (st : ConnState) (ops : List SockOp) : ConnState :=
  ops.foldl applyOp st

/-! ## Reading (network.py lines 123-140) -/

/-- Outcome of one `quicksnmp.get` unicast status query
(network.py lines 132-134): the queried status bytes on success, a raised
`socket.timeout`, or some other raised exception (which `_read` does not
catch). -/
inductive AttemptOutcome
  | success (bytes : List Nat)
  | sockTimeout
  | otherError
deriving DecidableEq, Repr

/-- Outcome of `_read`: returned bytes, the
`NotImplementedError('Unknown strategy')` of network.py line 140, or a
propagated non-timeout exception from `quicksnmp.get`. -/
inductive ReadOutcome
  | ret (bytes : List Nat)
  | raiseNotImplemented
  | raiseOther
deriving DecidableEq, Repr

/-- `tries` as computed by network.py lines 125-128: `1` for
`'socket_timeout'`, `2` for `'try_twice'` (only these two reach the
loop). -/
def readTries (strategy : String) : Nat :=
  if strategy = "socket_timeout" then 1 else 2

/-- The `for i in range(tries)` loop of `_read`
(network.py lines 129-138), with `oracle i` the outcome of the `i`-th
`quicksnmp.get` call.  A success returns `dataset[snmp_get_status]`
immediately; a `socket.timeout` is swallowed and the next iteration runs;
any other exception propagates; an exhausted loop returns `b''`
(modelled `[]`).  The second component counts the `quicksnmp.get` calls
actually issued. -/
def readLoop (oracle : Nat → AttemptOutcome) : Nat → Nat → ReadOutcome × Nat
  | _, 0 => (ReadOutcome.ret [], 0)
  | i, n + 1 =>
      match oracle i with
      | AttemptOutcome.success b => (ReadOutcome.ret b, 1)
      | AttemptOutcome.sockTimeout =>
          let r := readLoop oracle (i + 1) n
          (r.1, r.2 + 1)
      | AttemptOutcome.otherError => (ReadOutcome.raiseOther, 1)

/-- `_read` (network.py lines 123-140) under strategy string `strategy`:
strategies `'socket_timeout'` and `'try_twice'` run the unicast query loop
with one resp. two tries; any other strategy (in particular `'select'`,
the non-blocking-poll strategy) raises
`NotImplementedError('Unknown strategy')` without issuing any query.
Paired with the number of unicast queries issued.  (The `length`
parameter of `_read` is unused by the SNMP-based implementation.) -/
def readImpl (strategy : String) (oracle : Nat → AttemptOutcome) :
    ReadOutcome × Nat :=
  if strategy = "socket_timeout" ∨ strategy = "try_twice" then
    readLoop oracle 0 (readTries strategy)
  else (ReadOutcome.raiseNotImplemented, 0)

/-! ## Helper lemmas -/

lemma string_append_left_cancel {a b c : String} (h : a ++ b = a ++ c) : b = c := by
  have h2 := congrArg String.data h
  rw [String.data_append, String.data_append] at h2
  exact String.ext (List.append_cancel_left h2)

lemma mkDevice_injective : Function.Injective mkDevice := by
  intro p q h
  exact string_append_left_cancel (congrArg DiscoveredDevice.identifier h)

lemma mem_addFound {s : List String} {k k2 : String} :
    k ∈ addFound s k2 ↔ k ∈ s ∨ k = k2 := by
  unfold addFound
  split
  · constructor
    · exact Or.inl
    · rintro (hk | rfl)
      · exact hk
      · assumption
  · simp

lemma nodup_addFound {s : List String} (h : s.Nodup) (k : String) :
    (addFound s k).Nodup := by
  unfold addFound
  split
  · exact h
  · next hk =>
      rw [List.nodup_append]
      refine ⟨h, List.nodup_singleton k, ?_⟩
      intro a ha hb
      rw [List.mem_singleton] at hb
      subst hb
      exact hk ha

lemma mem_foldl_addFound (rs : List Response) (s : List String) (k : String) :
    k ∈ rs.foldl (fun acc r => addFound acc (addrKey r)) s ↔
      k ∈ s ∨ ∃ r ∈ rs, addrKey r = k := by
  induction rs generalizing s with
  | nil => simp
  | cons r rs ih =>
      rw [List.foldl_cons, ih, mem_addFound]
      constructor
      · rintro ((hk | rfl) | ⟨r2, hr2, hk2⟩)
        · exact Or.inl hk
        · exact Or.inr ⟨r, by simp⟩
        · exact Or.inr ⟨r2, by simp [hr2], hk2⟩
      · rintro (hk | ⟨r2, hr2, hk2⟩)
        · exact Or.inl (Or.inl hk)
        · rcases List.mem_cons.mp hr2 with rfl | hr2
          · exact Or.inl (Or.inr hk2.symm)
          · exact Or.inr ⟨r2, hr2, hk2⟩

lemma nodup_foldl_addFound (rs : List Response) (s : List String) (h : s.Nodup) :
    (rs.foldl (fun acc r => addFound acc (addrKey r)) s).Nodup := by
  induction rs generalizing s with
  | nil => simpa
  | cons r rs ih => exact ih _ (nodup_addFound h _)

lemma mem_foundPrintersOf {delivered : List Response} {k : String} :
    k ∈ foundPrintersOf delivered ↔ ∃ r ∈ delivered, addrKey r = k := by
  unfold foundPrintersOf
  rw [mem_foldl_addFound]
  simp

lemma nodup_foundPrintersOf (delivered : List Response) :
    (foundPrintersOf delivered).Nodup :=
  nodup_foldl_addFound delivered [] (List.nodup_nil)

/-! ## C10 -/

/-- C10: the fixed `brother_ql_snmp_oids` table is not injective — the
distinct field names `snmp_get_netmask` and `snmp_get_mac` are mapped to
the identical OID string `1.3.6.1.4.1.1240.2.3.4.5.2.4.0`, so a query for
the mac field retrieves the same object as a query for the netmask
field. -/
theorem C10_oid_table_not_injective :
    brother_ql_snmp_oids "snmp_get_netmask" = brother_ql_snmp_oids "snmp_get_mac" ∧
    brother_ql_snmp_oids "snmp_get_mac" = some "1.3.6.1.4.1.1240.2.3.4.5.2.4.0" ∧
    ("snmp_get_netmask" : String) ≠ "snmp_get_mac" :=
  ⟨rfl, rfl, by decide⟩

/-! ## C1 -/

/-- C1 (code bug): the scan's start time is NOT effectively recorded — the
line-72 assignment binds a Python local, so the module-level `startedAt`
read by `cbTimerFun` stays `0`.  Concretely, for a scan started at
wall-clock time `1000000` s, the tick at `1000001` s (1 s after start,
well within the 5-second window) already raises the stop condition,
because `cbTimerFun` compares `1000001` against `0` rather than against
`1000000`. -/
theorem C1_timer_fires_within_window :
    startedAt = 0 ∧ cbTimerFun 1000001 = true ∧
    ¬ ((1000001 : ℚ) - 1000000 > maxWaitForResponses) := by
  refine ⟨rfl, ?_, ?_⟩
  · simp only [cbTimerFun, startedAt, maxWaitForResponses, decide_eq_true_eq]
    norm_num
  · simp only [maxWaitForResponses]
    norm_num

/-! ## C2 -/

/-- C2 counterexample: on `"tcp://a:1:2"` the code does not split host
and port on the last `':'`.  A last-colon split would give host `a:1`
and port `2`; the code partitions on the first `':'` and then
`int("1:2")` raises `ValueError`. -/
theorem C2_counterexample :
    parseDeviceSpecifierS "tcp://a:1:2" = ParseResult.valueError ∧
    parseSpecLastColon "tcp://a:1:2".data = ParseResult.ok "a:1".data 2 ∧
    parseDeviceSpecifierS "tcp://a:1:2" ≠ parseSpecLastColon "tcp://a:1:2".data := by
  refine ⟨by decide, by decide, by decide⟩

lemma partitionColon_eq (l : List Char) :
    partitionColon l =
      (l.takeWhile (fun c => c ≠ ':'), (l.dropWhile (fun c => c ≠ ':')).drop 1) := by
  induction l with
  | nil => rfl
  | cons c cs ih =>
      by_cases h : c = ':'
      · subst h
        simp [partitionColon, List.takeWhile_cons, List.dropWhile_cons]
      · simp [partitionColon, h, ih, List.takeWhile_cons, List.dropWhile_cons]

lemma parse_eq_first_colon (s : List Char) :
    parseDeviceSpecifier s = parseSpecFirstColon s := by
  simp only [parseDeviceSpecifier, parseSpecFirstColon, partitionColon_eq]
  rcases h : (stripScheme s).dropWhile (fun c => c ≠ ':') with _ | ⟨c, port⟩ <;>
    simp [h]

/-- C2 (amended): construction strips the scheme prefix if present, splits
host and port on the FIRST `':'` of the remaining string (Python
`partition`), and defaults the port to 9100 when no port segment follows;
in particular `"tcp://192.168.1.5:9101"` yields host `192.168.1.5`, port
`9101`, and `"tcp://192.168.1.5"` yields host `192.168.1.5`, port
`9100`. -/
theorem C2_parse_first_colon (s : List Char) :
    parseDeviceSpecifier s = parseSpecFirstColon s ∧
    parseDeviceSpecifierS "tcp://192.168.1.5:9101" =
      ParseResult.ok "192.168.1.5".data 9101 ∧
    parseDeviceSpecifierS "tcp://192.168.1.5" =
      ParseResult.ok "192.168.1.5".data 9100 :=
  ⟨parse_eq_first_colon s, by decide, by decide⟩

/-- C2 witness: the amended parse theorem evaluated at a concrete
identifier. -/
theorem C2_parse_first_colon_witness :
    parseDeviceSpecifier "tcp://h:7".data = parseSpecFirstColon "tcp://h:7".data :=
  (C2_parse_first_colon "tcp://h:7".data).1

/-! ## C3 -/

/-- C3: every scan returns exactly one entry per distinct responding
`host:port` — duplicate responses delivered to `cbRecvFun` are coalesced
by the `foundPrinters` set — and every returned entry is the record
`{'identifier': 'tcp://' + entry, 'instance': None}`. -/
theorem C3_dedup_and_format (events : List ScanEvent) (devs : List DiscoveredDevice)
    (hdev : list_available_devices events = Except.ok devs) :
    (∀ r ∈ deliveredOf events, devs.count (mkDevice (addrKey r)) = 1) ∧
    (∀ d ∈ devs, d.inst = none ∧
      ∃ r ∈ deliveredOf events, d.identifier = "tcp://" ++ addrKey r) := by
  unfold list_available_devices at hdev
  have hd : devs = toDevices (foundPrintersOf (deliveredOf events)) :=
    (Except.ok.inj hdev).symm
  subst hd
  constructor
  · intro r hr
    have hmem : addrKey r ∈ foundPrintersOf (deliveredOf events) :=
      mem_foundPrintersOf.mpr ⟨r, hr, rfl⟩
    have hnd : (toDevices (foundPrintersOf (deliveredOf events))).Nodup :=
      (nodup_foundPrintersOf (deliveredOf events)).map mkDevice_injective
    exact List.count_eq_one_of_mem hnd (List.mem_map_of_mem mkDevice hmem)
  · intro d hd
    rcases List.mem_map.mp hd with ⟨p, hp, rfl⟩
    rcases mem_foundPrintersOf.mp hp with ⟨r, hr, rfl⟩
    exact ⟨rfl, r, hr, rfl⟩

/-- C3 witness: a scan that observes two duplicate responses from `a:1`
and one from `b:2` returns the `a:1` device exactly once. -/
theorem C3_dedup_and_format_witness :
    (toDevices (foundPrintersOf (deliveredOf
      [ScanEvent.recv "a" 1, ScanEvent.recv "a" 1, ScanEvent.recv "b" 2]))).count
        (mkDevice (addrKey ⟨"a", 1⟩)) = 1 :=
  (C3_dedup_and_format
      [ScanEvent.recv "a" 1, ScanEvent.recv "a" 1, ScanEvent.recv "b" 2] _ rfl).1
    ⟨"a", 1⟩ (by decide)

/-! ## C4 -/

lemma dispatchLoop_no_recv (events : List ScanEvent)
    (h : ∀ hh pp, ScanEvent.recv hh pp ∉ events) :
    (dispatchLoop events []).1 = [] := by
  induction events with
  | nil => rfl
  | cons e es ih =>
      cases e with
      | tick t =>
          simp only [dispatchLoop]
          split
          · rfl
          · exact ih (fun hh pp hm => h hh pp (List.mem_cons_of_mem _ hm))
      | recv hh pp => exact absurd (List.mem_cons_self _ _) (h hh pp)

/-- C4: a scan in which no response is delivered returns `Except.ok []`:
the empty list, with no exception escaping `list_available_devices` — the
`TimeoutTimerExpired` raised by the tick callback is caught by the
`try/except` around the broadcast (network.py lines 75-78). -/
theorem C4_zero_responses (events : List ScanEvent)
    (h : ∀ hh pp, ScanEvent.recv hh pp ∉ events) :
    list_available_devices events = Except.ok [] := by
  unfold list_available_devices deliveredOf
  rw [dispatchLoop_no_recv events h]
  rfl

/-- C4 witness: a scan whose only event is a tick that raises the stop
condition (`cbTimerFun 10 = true` since the global `startedAt` is 0)
still returns `Except.ok []` — the raise is caught, not propagated. -/
theorem C4_zero_responses_witness :
    list_available_devices [ScanEvent.tick 10] = Except.ok [] :=
  C4_zero_responses [ScanEvent.tick 10] (by intro hh pp; simp)

/-! ## C5 -/

/-- C5: under the `'socket_timeout'` (SingleTimeout) strategy, `_read`
issues exactly one unicast status query; a successful query returns the
status field's bytes, and a query that raises `socket.timeout` makes
`_read` return the empty byte sequence rather than raising. -/
theorem C5_single_timeout (oracle : Nat → AttemptOutcome) :
    (readImpl "socket_timeout" oracle).2 = 1 ∧
    (∀ b, oracle 0 = AttemptOutcome.success b →
      (readImpl "socket_timeout" oracle).1 = ReadOutcome.ret b) ∧
    (oracle 0 = AttemptOutcome.sockTimeout →
      (readImpl "socket_timeout" oracle).1 = ReadOutcome.ret []) := by
  rcases h0 : oracle 0 <;> simp [readImpl, readTries, readLoop, h0]

/-- C5 witness: one timed-out query yields the empty byte sequence. -/
theorem C5_single_timeout_witness :
    (readImpl "socket_timeout" (fun _ => AttemptOutcome.sockTimeout)).1 =
      ReadOutcome.ret [] :=
  (C5_single_timeout (fun _ => AttemptOutcome.sockTimeout)).2.2 rfl

/-! ## C6 -/

/-- C6: under the `'try_twice'` (TryTwice) strategy, `_read` issues at
most two unicast query attempts in sequence, returns the result of the
first attempt that succeeds, returns the empty byte sequence (without
raising) exactly when both attempts time out, and makes a second attempt
only when the first one raised `socket.timeout`. -/
theorem C6_try_twice (oracle : Nat → AttemptOutcome) :
    (readImpl "try_twice" oracle).2 ≤ 2 ∧
    (∀ b, oracle 0 = AttemptOutcome.success b →
      readImpl "try_twice" oracle = (ReadOutcome.ret b, 1)) ∧
    (∀ b, oracle 0 = AttemptOutcome.sockTimeout →
      oracle 1 = AttemptOutcome.success b →
      readImpl "try_twice" oracle = (ReadOutcome.ret b, 2)) ∧
    (oracle 0 = AttemptOutcome.sockTimeout →
      oracle 1 = AttemptOutcome.sockTimeout →
      readImpl "try_twice" oracle = (ReadOutcome.ret [], 2)) ∧
    (2 ≤ (readImpl "try_twice" oracle).2 →
      oracle 0 = AttemptOutcome.sockTimeout) := by
  rcases h0 : oracle 0 <;> rcases h1 : oracle 1 <;>
    simp [readImpl, readTries, readLoop, h0, h1]

/-- C6 witness: first attempt times out, second succeeds with bytes
`[7]` — `_read` returns `[7]` after exactly two attempts. -/
theorem C6_try_twice_witness :
    readImpl "try_twice"
        (fun i => if i = 0 then AttemptOutcome.sockTimeout
                  else AttemptOutcome.success [7]) =
      (ReadOutcome.ret [7], 2) :=
  (C6_try_twice
      (fun i => if i = 0 then AttemptOutcome.sockTimeout
                else AttemptOutcome.success [7])).2.2.1 [7] rfl rfl

/-! ## C8 -/

/-- C8: under the `'select'` (NonBlockingPoll) strategy, `_read` raises
`NotImplementedError('Unknown strategy')` without issuing any query; it
never returns data or an empty result. -/
theorem C8_select_not_implemented (oracle : Nat → AttemptOutcome) :
    readImpl "select" oracle = (ReadOutcome.raiseNotImplemented, 0) ∧
    ∀ b, (readImpl "select" oracle).1 ≠ ReadOutcome.ret b := by
  constructor
  · simp [readImpl]
  · intro b
    simp [readImpl]

/-- C8 witness: the `'select'` read path at a concrete oracle. -/
theorem C8_select_not_implemented_witness :
    readImpl "select" (fun _ => AttemptOutcome.success [1]) =
      (ReadOutcome.raiseNotImplemented, 0) :=
  (C8_select_not_implemented (fun _ => AttemptOutcome.success [1])).1

/-! ## C7 -/

/-- C7: `_write` performs exactly `settimeout(10); sendall(data);
settimeout(read_timeout)`: the timeout in effect when `sendall` runs is
10 seconds; afterwards the timeout is restored to the configured short
read timeout `read_timeout = 1/100` s (10 ms); all given bytes are handed
to one `sendall`; and no other connection state (host, strategy) is
changed. -/
theorem C7_write_effect (st : ConnState) (data : List Nat) :
    (runOps st (writeOps data)).timeout = read_timeout ∧
    read_timeout = 1 / 100 ∧
    (runOps st (writeOps data)).sent = st.sent ++ [data] ∧
    (runOps st (writeOps data)).host = st.host ∧
    (runOps st (writeOps data)).strategy = st.strategy ∧
    ∃ pre post, writeOps data = pre ++ SockOp.sendall data :: post ∧
      (runOps st pre).timeout = 10 :=
  ⟨rfl, rfl, rfl, rfl, rfl,
    [SockOp.setTimeout 10], [SockOp.setTimeout read_timeout], rfl, rfl⟩

/-- C7 witness: a concrete write on a fresh connection state. -/
theorem C7_write_effect_witness :
    (runOps ⟨5, [], "h".data, "socket_timeout"⟩ (writeOps [1, 2])).sent = [[1, 2]] ∧
    (runOps ⟨5, [], "h".data, "socket_timeout"⟩ (writeOps [1, 2])).timeout = read_timeout :=
  ⟨(C7_write_effect ⟨5, [], "h".data, "socket_timeout"⟩ [1, 2]).2.2.1,
   (C7_write_effect ⟨5, [], "h".data, "socket_timeout"⟩ [1, 2]).1⟩

/-! ## C9 -/

/-- C9: when the single TCP connect attempt made during construction
fails with an `OSError` (`some cause`), `__init__` raises the
construction-time connection failure — `ValueError('Could not connect to
the device.')` chained `from` the underlying `OSError` (the
`ConnectionError` of the spec's error taxonomy) — and no retry is
attempted: the outcome depends only on the one connect call at the parsed
`(host, port)`. -/
theorem C9_connect_failure (s host : List Char) (port : Nat)
    (oracle : List Char → Nat → Option String) (cause : String)
    (hparse : parseDeviceSpecifier s = ParseResult.ok host port)
    (hfail : oracle host port = some cause) :
    initBackend s oracle =
      InitResult.connectionError "Could not connect to the device.".data cause ∧
    ∀ oracle2 : List Char → Nat → Option String,
      oracle2 host port = oracle host port →
      initBackend s oracle2 = initBackend s oracle := by
  constructor
  · simp [initBackend, hparse, hfail]
  · intro o2 h2
    simp [initBackend, hparse, h2]

/-- C9 witness: connecting to `tcp://h` when the OS refuses the
connection yields the wrapped construction failure. -/
theorem C9_connect_failure_witness :
    initBackend "tcp://h".data (fun _ _ => some "refused") =
      InitResult.connectionError "Could not connect to the device.".data "refused" :=
  (C9_connect_failure "tcp://h".data "h".data 9100
      (fun _ _ => some "refused") "refused" (by decide) rfl).1

end BrotherQL
